import Mathlib

/-!
Verification of the UWB two-way-ranging (TWR) engine of the tag firmware.

The development shallowly embeds the ranging-related functions of
`src/uwb_driver_qorvo.c`, `src/uwb_driver.c` and `src/main.c`:

* the 40-bit wraparound interval primitive (the `Ra`/`Db` computation of
  `calculate_distance` and `uwb_wait_resp`),
* the SS-TWR distance computation (`calculate_distance`, and the provisional
  computation inlined in `uwb_wait_resp`); the C `double` arithmetic is
  modelled with exact rational arithmetic `ℚ`,
* the frame layouts of `uwb_send_poll`, `uwb_send_final`, the RESPONSE
  acceptance test and timestamp extraction of `uwb_wait_resp`, and
  `build_ieee802154_frame` of `uwb_driver.c`,
* the timestamp assembly of `get_tx_timestamp_u64` / `get_rx_timestamp_u64`,
* the supervisor loop of `main` (failure counter and watchdog re-init) and the
  return-value convention of `uwb_twr_cycle`.

Byte buffers are modelled as `List ℕ` whose entries are below 256 where that
matters; machine integers are modelled as `ℕ`/`ℤ` with explicit bounds.
-/

namespace UwbTwr

/-! ### Timestamp arithmetic (`src/uwb_driver_qorvo.c`) -/

/-- Constant `0x10000000000 = 2 ^ 40`, the 40-bit wraparound modulus used by
the `Ra`/`Db` computations (`0x10000000000ULL` in the C source). -/
def twoTo40 : ℕ := 0x10000000000

/-- Interval primitive `elapsed later earlier`, the `Ra`/`Db` computation of
`calculate_distance` (`uwb_driver_qorvo.c:450-464`, identically inlined in
`uwb_wait_resp:342-348`): subtract directly when `later >= earlier`, otherwise
add `2^40` before subtracting. -/
def elapsed (later earlier : ℕ) : ℕ :=
  if earlier ≤ later then later - earlier
  else (twoTo40 - earlier) + later

/-- Constant `SPEED_OF_LIGHT` of `uwb_driver_qorvo.c:35` (air-adjusted value,
used by `calculate_distance`). -/
def SPEED_OF_LIGHT : ℚ := 299702547

/-- Result of `calculate_distance`: the returned distance (metres) together
with whether the negative-time-of-flight warning branch
(`uwb_driver_qorvo.c:480-483`) was taken. -/
structure DistResult where
  distance : ℚ
  negTofWarned : Bool
  deriving DecidableEq

/-- Embedding of `calculate_distance` (`uwb_driver_qorvo.c:440-495`):
`Ra`/`Db` via the wraparound primitive, `tof = (Ra - Db)/2` clamped at zero,
`tof_sec = tof / (499.2e6 * 128)`, `distance = tof_sec * SPEED_OF_LIGHT`.
The C `double` arithmetic is modelled exactly over `ℚ`. -/
def calculate_distance (poll_tx_ts resp_rx_ts poll_rx_ts_anchor resp_tx_ts_anchor : ℕ) :
    DistResult :=
  let Ra : ℚ := (elapsed resp_rx_ts poll_tx_ts : ℕ)
  let Db : ℚ := (elapsed resp_tx_ts_anchor poll_rx_ts_anchor : ℕ)
  let tofRaw : ℚ := (Ra - Db) / 2
  let tof : ℚ := if tofRaw < 0 then 0 else tofRaw
  let tof_sec : ℚ := tof * (1 / (499200000 * 128))
  { distance := tof_sec * SPEED_OF_LIGHT, negTofWarned := decide (tofRaw < 0) }

/-- Embedding of the provisional distance computed inside `uwb_wait_resp`
(`uwb_driver_qorvo.c:338-355`): same `Ra`/`Db` and clamping, but converted
with `dist = tof * 15.65e-12 * 299792458.0` (vacuum speed of light and the
rounded DTU constant). -/
def provisional_distance (poll_tx_ts resp_rx_ts poll_rx_ts_anchor resp_tx_ts_anchor : ℕ) : ℚ :=
  let Ra : ℚ := (elapsed resp_rx_ts poll_tx_ts : ℕ)
  let Db : ℚ := (elapsed resp_tx_ts_anchor poll_rx_ts_anchor : ℕ)
  let tof0 : ℚ := (Ra - Db) / 2
  let tof : ℚ := if tof0 < 0 then 0 else tof0
  tof * (1565 / 10 ^ 14) * 299792458

/-- Millimetre field sent in the FINAL frame: `calculated_dist_mm =
(uint32_t)(dist * 1000.0)` (`uwb_driver_qorvo.c:356`), i.e. truncation of the
(non-negative, in-range) provisional distance in millimetres. -/
def calculated_dist_mm (poll_tx_ts resp_rx_ts poll_rx_ts_anchor resp_tx_ts_anchor : ℕ) : ℕ :=
  (⌊provisional_distance poll_tx_ts resp_rx_ts poll_rx_ts_anchor resp_tx_ts_anchor * 1000⌋).toNat

/-- Millimetre truncation of the distance recomputed by `calculate_distance`
at the end of the cycle, for comparison with the FINAL payload field. -/
def final_dist_mm (poll_tx_ts resp_rx_ts poll_rx_ts_anchor resp_tx_ts_anchor : ℕ) : ℕ :=
  (⌊(calculate_distance poll_tx_ts resp_rx_ts poll_rx_ts_anchor resp_tx_ts_anchor).distance
      * 1000⌋).toNat

/-! ### Timestamp capture (`get_tx_timestamp_u64` / `get_rx_timestamp_u64`) -/

/-- Embedding of `get_tx_timestamp_u64` (`uwb_driver_qorvo.c:42-56`): assemble
the 5 bytes read by `dwt_readtxtimestamp`, least significant byte first. -/
def get_tx_timestamp_u64 (ts_tab : List ℕ) : ℕ :=
  (ts_tab.getD 0 0) ||| ((ts_tab.getD 1 0) <<< 8) ||| ((ts_tab.getD 2 0) <<< 16) |||
    ((ts_tab.getD 3 0) <<< 24) ||| ((ts_tab.getD 4 0) <<< 32)

/-- Embedding of `get_rx_timestamp_u64` (`uwb_driver_qorvo.c:58-72`), the same
assembly over the bytes read by `dwt_readrxtimestamp`. -/
def get_rx_timestamp_u64 (ts_tab : List ℕ) : ℕ :=
  (ts_tab.getD 0 0) ||| ((ts_tab.getD 1 0) <<< 8) ||| ((ts_tab.getD 2 0) <<< 16) |||
    ((ts_tab.getD 3 0) <<< 24) ||| ((ts_tab.getD 4 0) <<< 32)

/-! ### RESPONSE frame acceptance and payload extraction (`uwb_wait_resp`) -/

/-- Acceptance test applied by `uwb_wait_resp` to a good received frame
(`uwb_driver_qorvo.c:307-317`): the frame is processed as a RESPONSE exactly
when `0 < frame_len < 128` (the `rx_buffer` size guard) and `frame_len >= 20`
and the message-type byte `rx_buffer[9]` equals `0x50`. -/
def respAccepted (frame_len : ℕ) (rx_buffer : List ℕ) : Bool :=
  (decide (0 < frame_len) && decide (frame_len < 128)) &&
    (decide (20 ≤ frame_len) && decide (rx_buffer.getD 9 0 = 0x50))

/-- Embedding of the 40-bit little-endian timestamp extraction loops of
`uwb_wait_resp` (`uwb_driver_qorvo.c:322-332`): starting at zero, or in each
byte `rx_buffer[off + i]` shifted left by `i * 8`, for `i = 0 .. 4`. -/
def extract_ts40 (rx_buffer : List ℕ) (off : ℕ) : ℕ :=
  (List.range 5).foldl (fun ts i => ts ||| ((rx_buffer.getD (off + i) 0) <<< (i * 8))) 0

/-! ### POLL and FINAL frame layouts (`uwb_send_poll` / `uwb_send_final`) -/

/-- Embedding of the POLL frame built by `uwb_send_poll`
(`uwb_driver_qorvo.c:245-254`): 10 bytes, sequence number (a wrapping
`uint8_t`) patched in at index 2, message type `0x61` at index 9. -/
def tx_poll_msg (seq_num : ℕ) : List ℕ :=
  [0x41, 0x88, seq_num % 256, 0xCA, 0xDE, 0xFF, 0xFF, 0x01, 0x00, 0x61]

/-- Embedding of the FINAL frame built by `uwb_send_final`
(`uwb_driver_qorvo.c:390-408`): 14 bytes, message type `0x23` at index 9, the
32-bit distance-in-millimetres field in little-endian order at bytes 10-13. -/
def final_frame (seq_num dist_mm : ℕ) : List ℕ :=
  [0x41, 0x88, seq_num % 256, 0xCA, 0xDE, 0x02, 0x00, 0x01, 0x00, 0x23,
    dist_mm &&& 0xFF, (dist_mm >>> 8) &&& 0xFF, (dist_mm >>> 16) &&& 0xFF,
    (dist_mm >>> 24) &&& 0xFF]

/-! ### Generic frame builder (`src/uwb_driver.c`) -/

/-- Embedding of the `uwb_data_frame_t` struct of `uwb_driver.c:51-59`; the
`payload` field models the fixed 32-byte payload buffer. -/
structure uwb_data_frame_t where
  frame_ctrl : List ℕ
  seq_num : ℕ
  pan_id : List ℕ
  dest_addr : List ℕ
  src_addr : List ℕ
  msg_type : ℕ
  payload : List ℕ
  deriving DecidableEq

/-- Embedding of `build_ieee802154_frame` (`uwb_driver.c:71-110`) for a
non-null frame pointer: the frame is zeroed, the header fields are filled in,
and when a payload pointer is given with `payload_len > 0` the first
`copy_len = min payload_len 32` source bytes are copied into the 32-byte
payload buffer.  Returns the filled frame and the total frame length
(`9 + 1 + copy_len`, or `10` with no payload). -/
def build_ieee802154_frame (frame_seq_num msg_type : ℕ)
    (payload : Option (List ℕ)) (payload_len : ℕ) : uwb_data_frame_t × ℕ :=
  let base : uwb_data_frame_t :=
    { frame_ctrl := [0x41, 0x88]
      seq_num := frame_seq_num % 256
      pan_id := [0xCA, 0xDE]
      dest_addr := [0xFF, 0xFF]
      src_addr := [0x01, 0x00]
      msg_type := msg_type
      payload := List.replicate 32 0 }
  match payload with
  | some p =>
      if 0 < payload_len then
        let copy_len := min payload_len 32
        ({ base with
            payload := (List.range copy_len).map (fun i => p.getD i 0) ++
              List.replicate (32 - copy_len) 0 },
          9 + 1 + copy_len)
      else (base, 10)
  | none => (base, 10)

/-! ### TWR cycle result and supervisor loop (`uwb_twr_cycle`, `main`) -/

/-- Embedding of the control flow of `uwb_twr_cycle`
(`uwb_driver_qorvo.c:498-543`): each of POLL TX, RESPONSE wait and FINAL TX
may fail, aborting the cycle with `-1`; after all three succeed the distance
is computed and only logged (success log when `distance > 0`, warning
otherwise, recorded in the second component) and the function returns `0`
unconditionally. -/
def uwb_twr_cycle (poll_ok resp_ok final_ok : Bool)
    (poll_tx_ts resp_rx_ts poll_rx_ts_anchor resp_tx_ts_anchor : ℕ) : ℤ × Bool :=
  if poll_ok = false then (-1, false)
  else if resp_ok = false then (-1, false)
  else if final_ok = false then (-1, false)
  else
    (0, decide (0 < (calculate_distance poll_tx_ts resp_rx_ts poll_rx_ts_anchor
        resp_tx_ts_anchor).distance))

/-- Outcome of one supervisor iteration, from the return value of
`uwb_twr_cycle` as tested by `main` (`main.c:261`): nonzero means failure. -/
inductive Outcome : Type
  | ok : Outcome
  | fail : Outcome
  deriving DecidableEq

/-- The outcome `main` derives from a cycle return value (`if (ret)`). -/
def outcome_of_ret (ret : ℤ) : Outcome :=
  if ret = 0 then .ok else .fail

/-- Supervisor counters of the main loop: the consecutive-failure counter
`fail_count` and the number of `uwb_driver_init` re-initialization calls
issued by the watchdog. -/
structure SupervisorState where
  fail_count : ℕ
  reinit_count : ℕ
  deriving DecidableEq

/-- One iteration of the supervisor logic of `main` (`main.c:260-278`): on
failure increment `fail_count` and, when it reaches 10, re-initialize the
transceiver and reset the counter; on success reset the counter. -/
def supervisor_step (s : SupervisorState) (r : Outcome) : SupervisorState :=
  match r with
  | .fail =>
      if 10 ≤ s.fail_count + 1 then
        { fail_count := 0, reinit_count := s.reinit_count + 1 }
      else
        { fail_count := s.fail_count + 1, reinit_count := s.reinit_count }
  | .ok => { fail_count := 0, reinit_count := s.reinit_count }

/-- The supervisor loop run over a finite list of cycle outcomes. -/
def supervisor_run (s : SupervisorState) (rs : List Outcome) : SupervisorState :=
  rs.foldl supervisor_step s

/-- Number of consecutive failures at the end of an outcome sequence (reset
by every success), used to state the failure-counter invariant. -/
def consecutive_failures (rs : List Outcome) : ℕ :=
  rs.foldl (fun n r => match r with | .fail => n + 1 | .ok => 0) 0

/-! ### Helper lemmas -/

/-- Bitwise or with a disjointly shifted value is addition: for `a < 2 ^ k`,
`a ||| b <<< k = a + b <<< k`. -/
theorem lor_shiftLeft_eq_add (k a b : ℕ) (h : a < 2 ^ k) :
    a ||| b <<< k = a + b <<< k := by
  apply Nat.eq_of_testBit_eq
  intro i
  rw [Nat.testBit_lor, Nat.testBit_shiftLeft, Nat.shiftLeft_eq,
    Nat.add_comm a (b * 2 ^ k), Nat.mul_comm b (2 ^ k), Nat.testBit_mul_pow_two_add b h i]
  rcases Nat.lt_or_ge i k with hik | hik
  · simp [hik, Nat.not_le.mpr hik]
  · have ha : a.testBit i = false :=
      Nat.testBit_lt_two_pow (lt_of_lt_of_le h (Nat.pow_le_pow_right (by norm_num) hik))
    simp [Nat.not_lt.mpr hik, hik, ha]

/-- Assembling five bytes little-endian with ors and shifts equals the
weighted byte sum. -/
theorem assemble5_eq_sum (b0 b1 b2 b3 b4 : ℕ)
    (h0 : b0 < 256) (h1 : b1 < 256) (h2 : b2 < 256) (h3 : b3 < 256) (h4 : b4 < 256) :
    b0 ||| b1 <<< 8 ||| b2 <<< 16 ||| b3 <<< 24 ||| b4 <<< 32 =
      b0 + b1 * 2 ^ 8 + b2 * 2 ^ 16 + b3 * 2 ^ 24 + b4 * 2 ^ 32 := by
  have p8 : (2 : ℕ) ^ 8 = 256 := by norm_num
  have p16 : (2 : ℕ) ^ 16 = 65536 := by norm_num
  have p24 : (2 : ℕ) ^ 24 = 16777216 := by norm_num
  have p32 : (2 : ℕ) ^ 32 = 4294967296 := by norm_num
  have e1 : b0 ||| b1 <<< 8 = b0 + b1 * 2 ^ 8 := by
    rw [lor_shiftLeft_eq_add 8 b0 b1 (by omega), Nat.shiftLeft_eq]
  have l1 : b0 + b1 * 2 ^ 8 < 2 ^ 16 := by rw [p8, p16]; omega
  have e2 : b0 + b1 * 2 ^ 8 ||| b2 <<< 16 = b0 + b1 * 2 ^ 8 + b2 * 2 ^ 16 := by
    rw [lor_shiftLeft_eq_add 16 _ b2 l1, Nat.shiftLeft_eq]
  have l2 : b0 + b1 * 2 ^ 8 + b2 * 2 ^ 16 < 2 ^ 24 := by rw [p8, p16, p24]; omega
  have e3 : b0 + b1 * 2 ^ 8 + b2 * 2 ^ 16 ||| b3 <<< 24 =
      b0 + b1 * 2 ^ 8 + b2 * 2 ^ 16 + b3 * 2 ^ 24 := by
    rw [lor_shiftLeft_eq_add 24 _ b3 l2, Nat.shiftLeft_eq]
  have l3 : b0 + b1 * 2 ^ 8 + b2 * 2 ^ 16 + b3 * 2 ^ 24 < 2 ^ 32 := by
    rw [p8, p16, p24, p32]; omega
  have e4 : b0 + b1 * 2 ^ 8 + b2 * 2 ^ 16 + b3 * 2 ^ 24 ||| b4 <<< 32 =
      b0 + b1 * 2 ^ 8 + b2 * 2 ^ 16 + b3 * 2 ^ 24 + b4 * 2 ^ 32 := by
    rw [lor_shiftLeft_eq_add 32 _ b4 l3, Nat.shiftLeft_eq]
  rw [e1, e2, e3, e4]

/-- The weighted sum of five bytes is below `2 ^ 40`. -/
theorem sum5_lt_twoTo40 (b0 b1 b2 b3 b4 : ℕ)
    (h0 : b0 < 256) (h1 : b1 < 256) (h2 : b2 < 256) (h3 : b3 < 256) (h4 : b4 < 256) :
    b0 + b1 * 2 ^ 8 + b2 * 2 ^ 16 + b3 * 2 ^ 24 + b4 * 2 ^ 32 < twoTo40 := by
  have p8 : (2 : ℕ) ^ 8 = 256 := by norm_num
  have p16 : (2 : ℕ) ^ 16 = 65536 := by norm_num
  have p24 : (2 : ℕ) ^ 24 = 16777216 := by norm_num
  have p32 : (2 : ℕ) ^ 32 = 4294967296 := by norm_num
  have p40 : twoTo40 = 1099511627776 := by norm_num [twoTo40]
  rw [p8, p16, p24, p32, p40]; omega

/-- Every entry looked up with default `0` in a byte list is below 256. -/
theorem getD_lt_256 (l : List ℕ) (hb : ∀ x ∈ l, x < 256) (i : ℕ) : l.getD i 0 < 256 := by
  by_cases h : i < l.length
  · rw [List.getD_eq_getElem l 0 h]
    exact hb _ (List.getElem_mem h)
  · rw [List.getD_eq_default l 0 (by omega)]
    norm_num

/-! ### C1: the interval primitive computes `(a - b) mod 2^40` -/

/-- C1: for 40-bit timestamps `a` and `b`, the interval primitive
`elapsed a b` (the `Ra`/`Db` computation) equals `(a - b) mod 2^40`, lies in
`[0, 2^40)`, satisfies `elapsed a a = 0`, and `elapsed 5 (2^40 - 3) = 8`. -/
theorem C1_elapsed_mod_2pow40 (a b : ℕ) (ha : a < twoTo40) (hb : b < twoTo40) :
    ((elapsed a b : ℤ) = ((a : ℤ) - (b : ℤ)) % 2 ^ 40) ∧
    elapsed a b < twoTo40 ∧ elapsed a a = 0 ∧ elapsed 5 (twoTo40 - 3) = 8 := by
  have h40 : twoTo40 = 1099511627776 := by norm_num [twoTo40]
  have h40z : (2 : ℤ) ^ 40 = 1099511627776 := by norm_num
  refine ⟨?_, ?_, ?_, ?_⟩
  · unfold elapsed
    split
    · rename_i h
      push_cast [h]
      simp only [h40] at ha hb
      omega
    · rename_i h
      have hble : b ≤ twoTo40 := le_of_lt hb
      push_cast [Nat.cast_sub hble]
      simp only [h40] at ha hb ⊢
      push_cast
      omega
  · unfold elapsed
    split <;> omega
  · simp [elapsed]
  · norm_num [elapsed, twoTo40]

/-- Witness for C1 at `a = 7`, `b = 3`. -/
theorem C1_elapsed_mod_2pow40_witness :
    ((elapsed 7 3 : ℤ) = ((7 : ℤ) - (3 : ℤ)) % 2 ^ 40) ∧
    elapsed 7 3 < twoTo40 ∧ elapsed 7 7 = 0 ∧ elapsed 5 (twoTo40 - 3) = 8 :=
  C1_elapsed_mod_2pow40 7 3 (by norm_num [twoTo40]) (by norm_num [twoTo40])

/-! ### C2: equal round-trip and reply-delay intervals give distance zero -/

/-- C2: `calculate_distance` derives the time of flight as
`(roundTrip - replyDelay) / 2` from the four timestamps; whenever the tag
round-trip interval equals the anchor reply-delay interval the returned
distance is exactly `0`. -/
theorem C2_equal_intervals_distance_zero
    (poll_tx_ts resp_rx_ts poll_rx_ts_anchor resp_tx_ts_anchor : ℕ)
    (h : elapsed resp_rx_ts poll_tx_ts = elapsed resp_tx_ts_anchor poll_rx_ts_anchor) :
    (calculate_distance poll_tx_ts resp_rx_ts poll_rx_ts_anchor
      resp_tx_ts_anchor).distance = 0 := by
  simp [calculate_distance, h]

/-- Witness for C2 at `poll_tx = 0`, `resp_rx = 7`, `poll_rx_anchor = 1`,
`resp_tx_anchor = 8` (both intervals equal `7`). -/
theorem C2_equal_intervals_distance_zero_witness :
    (calculate_distance 0 7 1 8).distance = 0 :=
  C2_equal_intervals_distance_zero 0 7 1 8 (by norm_num [elapsed, twoTo40])

/-! ### C3: negative time of flight is clamped to zero -/

/-- C3: whenever the anchor reply-delay interval exceeds the tag round-trip
interval (negative computed time of flight), `calculate_distance` clamps the
time of flight to zero and takes the low-confidence warning branch, so the
returned distance is `0`; moreover the returned distance is never negative
on any input. -/
theorem C3_negative_tof_clamped
    (poll_tx_ts resp_rx_ts poll_rx_ts_anchor resp_tx_ts_anchor : ℕ)
    (h : elapsed resp_rx_ts poll_tx_ts < elapsed resp_tx_ts_anchor poll_rx_ts_anchor) :
    (calculate_distance poll_tx_ts resp_rx_ts poll_rx_ts_anchor
      resp_tx_ts_anchor).distance = 0 ∧
    (calculate_distance poll_tx_ts resp_rx_ts poll_rx_ts_anchor
      resp_tx_ts_anchor).negTofWarned = true ∧
    ∀ a b c d : ℕ, 0 ≤ (calculate_distance a b c d).distance := by
  have hq : ((elapsed resp_rx_ts poll_tx_ts : ℚ) -
      (elapsed resp_tx_ts_anchor poll_rx_ts_anchor : ℚ)) / 2 < 0 := by
    have hc := (Nat.cast_lt (α := ℚ)).mpr h
    linarith
  refine ⟨by simp [calculate_distance, hq], by simp [calculate_distance, hq], ?_⟩
  intro a b c d
  simp only [calculate_distance]
  split
  · simp
  · rename_i hnn
    push_neg at hnn
    have h1 : (0 : ℚ) ≤ 1 / (499200000 * 128) := by norm_num
    have h2 : (0 : ℚ) ≤ SPEED_OF_LIGHT := by norm_num [SPEED_OF_LIGHT]
    exact mul_nonneg (mul_nonneg hnn h1) h2

/-- Witness for C3 at `poll_tx = 0`, `resp_rx = 5`, `poll_rx_anchor = 0`,
`resp_tx_anchor = 10` (round trip `5`, reply delay `10`). -/
theorem C3_negative_tof_clamped_witness :
    (calculate_distance 0 5 0 10).distance = 0 ∧
    (calculate_distance 0 5 0 10).negTofWarned = true ∧
    ∀ a b c d : ℕ, 0 ≤ (calculate_distance a b c d).distance :=
  C3_negative_tof_clamped 0 5 0 10 (by norm_num [elapsed, twoTo40])

/-! ### C4: RESPONSE frame acceptance -/

/-- Concrete 128-byte frame whose message-type byte at index 9 is `0x50`:
its length is at least 20 and its type byte is RESPONSE, yet `uwb_wait_resp`
rejects it because of the `frame_len < 128` buffer guard. -/
def oversize_resp_frame : List ℕ :=
  List.replicate 9 0 ++ 0x50 :: List.replicate 118 0

set_option maxRecDepth 4000 in
/-- Counterexample to C4 as stated: a received frame of length 128 with
message-type byte `0x50` satisfies the claimed acceptance condition
(length at least 20, type byte `0x50`) but is reported invalid. -/
theorem C4_counterexample_oversize_frame :
    respAccepted 128 oversize_resp_frame = false ∧
    oversize_resp_frame.length = 128 ∧
    20 ≤ (128 : ℕ) ∧ oversize_resp_frame.getD 9 0 = 0x50 := by
  decide

/-- C4 (amended): `uwb_wait_resp` reports a received frame as a valid
RESPONSE if and only if its length is at least 20, below 128 (the RX buffer
guard), and its message-type byte at index 9 equals `0x50`; the two anchor
timestamps are extracted little-endian from payload offsets 10-14 and 15-19
and are always below `2^40`. -/
theorem C4_decode_response (frame_len : ℕ) (rx_buffer : List ℕ)
    (hb : ∀ x ∈ rx_buffer, x < 256) :
    (respAccepted frame_len rx_buffer = true ↔
      (20 ≤ frame_len ∧ frame_len < 128 ∧ rx_buffer.getD 9 0 = 0x50)) ∧
    extract_ts40 rx_buffer 10 =
      rx_buffer.getD 10 0 + rx_buffer.getD 11 0 * 2 ^ 8 + rx_buffer.getD 12 0 * 2 ^ 16 +
        rx_buffer.getD 13 0 * 2 ^ 24 + rx_buffer.getD 14 0 * 2 ^ 32 ∧
    extract_ts40 rx_buffer 15 =
      rx_buffer.getD 15 0 + rx_buffer.getD 16 0 * 2 ^ 8 + rx_buffer.getD 17 0 * 2 ^ 16 +
        rx_buffer.getD 18 0 * 2 ^ 24 + rx_buffer.getD 19 0 * 2 ^ 32 ∧
    extract_ts40 rx_buffer 10 < twoTo40 ∧ extract_ts40 rx_buffer 15 < twoTo40 := by
  have g := getD_lt_256 rx_buffer hb
  have h10 : extract_ts40 rx_buffer 10 =
      rx_buffer.getD 10 0 ||| rx_buffer.getD 11 0 <<< 8 ||| rx_buffer.getD 12 0 <<< 16 |||
        rx_buffer.getD 13 0 <<< 24 ||| rx_buffer.getD 14 0 <<< 32 := by
    simp [extract_ts40, List.range_succ, Nat.zero_or, Nat.shiftLeft_zero]
  have h15 : extract_ts40 rx_buffer 15 =
      rx_buffer.getD 15 0 ||| rx_buffer.getD 16 0 <<< 8 ||| rx_buffer.getD 17 0 <<< 16 |||
        rx_buffer.getD 18 0 <<< 24 ||| rx_buffer.getD 19 0 <<< 32 := by
    simp [extract_ts40, List.range_succ, Nat.zero_or, Nat.shiftLeft_zero]
  have e10 : extract_ts40 rx_buffer 10 =
      rx_buffer.getD 10 0 + rx_buffer.getD 11 0 * 2 ^ 8 + rx_buffer.getD 12 0 * 2 ^ 16 +
        rx_buffer.getD 13 0 * 2 ^ 24 + rx_buffer.getD 14 0 * 2 ^ 32 := by
    rw [h10, assemble5_eq_sum _ _ _ _ _ (g 10) (g 11) (g 12) (g 13) (g 14)]
  have e15 : extract_ts40 rx_buffer 15 =
      rx_buffer.getD 15 0 + rx_buffer.getD 16 0 * 2 ^ 8 + rx_buffer.getD 17 0 * 2 ^ 16 +
        rx_buffer.getD 18 0 * 2 ^ 24 + rx_buffer.getD 19 0 * 2 ^ 32 := by
    rw [h15, assemble5_eq_sum _ _ _ _ _ (g 15) (g 16) (g 17) (g 18) (g 19)]
  refine ⟨?_, e10, e15, ?_, ?_⟩
  · simp only [respAccepted, Bool.and_eq_true, decide_eq_true_eq]
    constructor
    · rintro ⟨⟨h1, h2⟩, h3, h4⟩
      exact ⟨h3, h2, h4⟩
    · rintro ⟨h3, h2, h4⟩
      exact ⟨⟨by omega, h2⟩, h3, h4⟩
  · rw [e10]
    exact sum5_lt_twoTo40 _ _ _ _ _ (g 10) (g 11) (g 12) (g 13) (g 14)
  · rw [e15]
    exact sum5_lt_twoTo40 _ _ _ _ _ (g 15) (g 16) (g 17) (g 18) (g 19)

/-- Concrete valid 20-byte RESPONSE frame used as the C4 witness input. -/
def resp_witness_frame : List ℕ :=
  [0x41, 0x88, 0, 0xCA, 0xDE, 0x01, 0x00, 0x02, 0x00, 0x50,
    1, 2, 3, 4, 5, 6, 7, 8, 9, 10]

/-- Witness for C4 (amended) at a concrete valid 20-byte RESPONSE frame. -/
theorem C4_decode_response_witness :
    (respAccepted 20 resp_witness_frame = true ↔
      (20 ≤ 20 ∧ 20 < 128 ∧ resp_witness_frame.getD 9 0 = 0x50)) ∧
    extract_ts40 resp_witness_frame 10 =
      resp_witness_frame.getD 10 0 + resp_witness_frame.getD 11 0 * 2 ^ 8 +
        resp_witness_frame.getD 12 0 * 2 ^ 16 + resp_witness_frame.getD 13 0 * 2 ^ 24 +
        resp_witness_frame.getD 14 0 * 2 ^ 32 ∧
    extract_ts40 resp_witness_frame 15 =
      resp_witness_frame.getD 15 0 + resp_witness_frame.getD 16 0 * 2 ^ 8 +
        resp_witness_frame.getD 17 0 * 2 ^ 16 + resp_witness_frame.getD 18 0 * 2 ^ 24 +
        resp_witness_frame.getD 19 0 * 2 ^ 32 ∧
    extract_ts40 resp_witness_frame 10 < twoTo40 ∧
    extract_ts40 resp_witness_frame 15 < twoTo40 :=
  C4_decode_response 20 resp_witness_frame (by decide)

/-! ### C5: supervisor failure counter and watchdog -/

/-- Failure-counter invariant of the supervisor loop: starting from a counter
of the form `m % 10`, after any outcome sequence the counter equals the
virtual count of consecutive trailing failures, modulo the threshold 10. -/
theorem supervisor_fail_count_mod (rs : List Outcome) :
    ∀ m k, (supervisor_run { fail_count := m % 10, reinit_count := k } rs).fail_count =
      (rs.foldl (fun n r => match r with | .fail => n + 1 | .ok => 0) m) % 10 := by
  induction rs with
  | nil => intro m k; simp [supervisor_run]
  | cons r rs ih =>
    intro m k
    cases r with
    | ok =>
      simp only [supervisor_run, List.foldl, supervisor_step]
      exact ih 0 k
    | fail =>
      simp only [supervisor_run, List.foldl, supervisor_step]
      by_cases h : 10 ≤ m % 10 + 1
      · have e : (m + 1) % 10 = 0 := by omega
        rw [if_pos h]
        have hrec := ih (m + 1) (k + 1)
        rw [e] at hrec
        exact hrec
      · have e : (m + 1) % 10 = m % 10 + 1 := by omega
        rw [if_neg h]
        have hrec := ih (m + 1) k
        rw [e] at hrec
        exact hrec

/-- C5: starting from a zero counter, 10 consecutive failed cycles trigger
exactly one re-initialization and leave the counter at 0; a successful cycle
resets the counter without re-initializing; after any outcome sequence the
counter equals the number of consecutive trailing failures reduced modulo the
threshold (i.e. the failures since the last success or re-initialization) and
is always below the threshold 10. -/
theorem C5_supervisor_watchdog (rs : List Outcome) (k : ℕ) (s : SupervisorState) :
    supervisor_run { fail_count := 0, reinit_count := k } (List.replicate 10 .fail) =
      { fail_count := 0, reinit_count := k + 1 } ∧
    supervisor_step s .ok = { fail_count := 0, reinit_count := s.reinit_count } ∧
    (supervisor_run { fail_count := 0, reinit_count := k } rs).fail_count =
      consecutive_failures rs % 10 ∧
    (supervisor_run { fail_count := 0, reinit_count := k } rs).fail_count < 10 := by
  refine ⟨rfl, rfl, ?_, ?_⟩
  · exact supervisor_fail_count_mod rs 0 k
  · have hmod := supervisor_fail_count_mod rs 0 k
    simp only [Nat.zero_mod] at hmod
    omega

/-! ### C6: provisional vs. final distance -/

/-- Counterexample to C6 as stated: at `poll_tx = 0`, `resp_rx = 2000000`,
`poll_rx_anchor = resp_tx_anchor = 0` (time of flight `10^6` DTU) the
millimetre truncations of the provisional distance of `uwb_wait_resp` and of
the distance recomputed by `calculate_distance` differ by 1395 mm: the two
functions use different conversion constants. -/
theorem C6_counterexample_provisional_ne_final :
    calculated_dist_mm 0 2000000 0 0 = 4691751 ∧
    final_dist_mm 0 2000000 0 0 = 4690356 ∧
    calculated_dist_mm 0 2000000 0 0 ≠ final_dist_mm 0 2000000 0 0 := by
  refine ⟨?_, ?_, ?_⟩ <;>
    · norm_num [calculated_dist_mm, final_dist_mm, provisional_distance, calculate_distance,
        elapsed, twoTo40, SPEED_OF_LIGHT]
      decide

/-- C6 (amended): the provisional distance of `uwb_wait_resp` and the final
distance of `calculate_distance` are computed from the same four timestamps
with the same wraparound intervals and zero-clamping, but with different
conversion constants (`15.65e-12 * 299792458` versus
`(1 / (499.2e6 * 128)) * 299702547`); the two results are exactly
proportional, with a ratio that is not 1, so they agree only approximately
rather than being equal. -/
theorem C6_provisional_final_proportional
    (poll_tx_ts resp_rx_ts poll_rx_ts_anchor resp_tx_ts_anchor : ℕ) :
    provisional_distance poll_tx_ts resp_rx_ts poll_rx_ts_anchor resp_tx_ts_anchor *
        (299702547 / 63897600000) =
      (calculate_distance poll_tx_ts resp_rx_ts poll_rx_ts_anchor
          resp_tx_ts_anchor).distance * (1565 / 10 ^ 14 * 299792458) ∧
    (1565 / 10 ^ 14 * 299792458 : ℚ) ≠ 299702547 / 63897600000 := by
  constructor
  · simp only [provisional_distance, calculate_distance, SPEED_OF_LIGHT]
    split_ifs with h
    · ring
    · ring
  · norm_num

/-! ### C7: POLL and FINAL frame layouts -/

/-- C7: `uwb_send_poll` always produces a fixed 10-byte frame whose
message-type byte at index 9 is POLL (`0x61`) with no payload, and
`uwb_send_final` always produces a 14-byte frame whose 4-byte
distance-in-millimetres field occupies bytes 10-13 in little-endian order. -/
theorem C7_frame_layouts (seq_num dist_mm : ℕ) (hd : dist_mm < 2 ^ 32) :
    (tx_poll_msg seq_num).length = 10 ∧
    (tx_poll_msg seq_num).getD 9 0 = 0x61 ∧
    (final_frame seq_num dist_mm).length = 14 ∧
    (final_frame seq_num dist_mm).getD 10 0 +
      (final_frame seq_num dist_mm).getD 11 0 * 2 ^ 8 +
      (final_frame seq_num dist_mm).getD 12 0 * 2 ^ 16 +
      (final_frame seq_num dist_mm).getD 13 0 * 2 ^ 24 = dist_mm := by
  refine ⟨rfl, rfl, rfl, ?_⟩
  show (dist_mm &&& 0xFF) + ((dist_mm >>> 8) &&& 0xFF) * 2 ^ 8 +
      ((dist_mm >>> 16) &&& 0xFF) * 2 ^ 16 + ((dist_mm >>> 24) &&& 0xFF) * 2 ^ 24 = dist_mm
  rw [(by norm_num : (0xFF : ℕ) = 2 ^ 8 - 1)]
  simp only [Nat.and_pow_two_sub_one_eq_mod, Nat.shiftRight_eq_div_pow]
  omega

/-- Witness for C7 at `seq_num = 3`, `dist_mm = 305419896 = 0x12345678`. -/
theorem C7_frame_layouts_witness :
    (tx_poll_msg 3).length = 10 ∧
    (tx_poll_msg 3).getD 9 0 = 0x61 ∧
    (final_frame 3 305419896).length = 14 ∧
    (final_frame 3 305419896).getD 10 0 + (final_frame 3 305419896).getD 11 0 * 2 ^ 8 +
      (final_frame 3 305419896).getD 12 0 * 2 ^ 16 +
      (final_frame 3 305419896).getD 13 0 * 2 ^ 24 = 305419896 :=
  C7_frame_layouts 3 305419896 (by norm_num)

/-! ### C8: captured timestamps satisfy the 40-bit invariant -/

/-- C8: every timestamp assembled by `get_tx_timestamp_u64` or
`get_rx_timestamp_u64` from the 5 bytes read from the transceiver is strictly
below `2 ^ 40`, so the session timestamps always satisfy the 40-bit mask
invariant. -/
theorem C8_timestamps_lt_2pow40 (tx_tab rx_tab : List ℕ)
    (htx : ∀ x ∈ tx_tab, x < 256) (hrx : ∀ x ∈ rx_tab, x < 256) :
    get_tx_timestamp_u64 tx_tab < twoTo40 ∧ get_rx_timestamp_u64 rx_tab < twoTo40 := by
  have gtx := getD_lt_256 tx_tab htx
  have grx := getD_lt_256 rx_tab hrx
  constructor
  · unfold get_tx_timestamp_u64
    rw [assemble5_eq_sum _ _ _ _ _ (gtx 0) (gtx 1) (gtx 2) (gtx 3) (gtx 4)]
    exact sum5_lt_twoTo40 _ _ _ _ _ (gtx 0) (gtx 1) (gtx 2) (gtx 3) (gtx 4)
  · unfold get_rx_timestamp_u64
    rw [assemble5_eq_sum _ _ _ _ _ (grx 0) (grx 1) (grx 2) (grx 3) (grx 4)]
    exact sum5_lt_twoTo40 _ _ _ _ _ (grx 0) (grx 1) (grx 2) (grx 3) (grx 4)

/-- Witness for C8 at the concrete 5-byte reads `[1,2,3,4,5]` and
`[255,255,255,255,255]`. -/
theorem C8_timestamps_lt_2pow40_witness :
    get_tx_timestamp_u64 [1, 2, 3, 4, 5] < twoTo40 ∧
    get_rx_timestamp_u64 [255, 255, 255, 255, 255] < twoTo40 :=
  C8_timestamps_lt_2pow40 [1, 2, 3, 4, 5] [255, 255, 255, 255, 255] (by decide) (by decide)

/-! ### C9: frame builder never overflows the payload buffer -/

/-- C9: for every payload pointer and declared payload length,
`build_ieee802154_frame` copies at most `min payload_len 32 ≤ 32` bytes and
leaves the 32-byte payload buffer at exactly 32 bytes, and the returned total
frame length is 10 with no payload and `10 + min payload_len 32` otherwise,
hence always at most 42. -/
theorem C9_frame_build_bounded (frame_seq_num msg_type payload_len : ℕ)
    (payload : Option (List ℕ)) :
    ((build_ieee802154_frame frame_seq_num msg_type payload payload_len).1.payload).length
      = 32 ∧
    min payload_len 32 ≤ 32 ∧
    (build_ieee802154_frame frame_seq_num msg_type payload payload_len).2 =
      (match payload with
        | none => 10
        | some _ => 10 + min payload_len 32) ∧
    (build_ieee802154_frame frame_seq_num msg_type payload payload_len).2 ≤ 42 := by
  rcases payload with _ | p
  · simp [build_ieee802154_frame]
  · by_cases hl : 0 < payload_len
    · refine ⟨?_, by omega, ?_, ?_⟩ <;>
        simp [build_ieee802154_frame, hl] <;> omega
    · have h0 : payload_len = 0 := by omega
      subst h0
      simp [build_ieee802154_frame]

/-! ### C10: a completed cycle reports success regardless of the distance -/

/-- C10: whenever the POLL transmission, RESPONSE reception and FINAL
transmission all complete, `uwb_twr_cycle` returns 0 for every combination of
timestamps — including those where the computed distance is clamped to zero
or flagged invalid — and the supervisor consequently resets its
consecutive-failure counter without re-initializing. -/
theorem C10_completed_cycle_returns_success
    (poll_tx_ts resp_rx_ts poll_rx_ts_anchor resp_tx_ts_anchor : ℕ)
    (s : SupervisorState) :
    (uwb_twr_cycle true true true poll_tx_ts resp_rx_ts poll_rx_ts_anchor
      resp_tx_ts_anchor).1 = 0 ∧
    (supervisor_step s (outcome_of_ret (uwb_twr_cycle true true true poll_tx_ts resp_rx_ts
      poll_rx_ts_anchor resp_tx_ts_anchor).1)).fail_count = 0 ∧
    (supervisor_step s (outcome_of_ret (uwb_twr_cycle true true true poll_tx_ts resp_rx_ts
      poll_rx_ts_anchor resp_tx_ts_anchor).1)).reinit_count = s.reinit_count := by
  refine ⟨rfl, ?_, ?_⟩ <;> simp [uwb_twr_cycle, outcome_of_ret, supervisor_step]

end UwbTwr
